import Mathlib

/-!
Shallow embedding of the softphone SIP service core
(src/services/sipService.ts of AkshatJha21/softphone).

The service wraps the external SIP.js transport.  Every interaction with the
transport (URI parsing, WebSocket start, REGISTER, INVITE, accept, bye,
reject, cancel, INFO, stop) is an external round trip whose outcome the code
only observes as success or a thrown error; each such outcome is passed to the
embedded method as an explicit Bool parameter, and the directive that was
issued to the transport is recorded as an event.  Observer callbacks
(onStateChange, onCallerId, onError) and console logging are likewise recorded
as events, in the order the code issues them.

The service object state is:
  - hasUserAgent   : whether `this.userAgent` is non-null,
  - hasRegisterer  : whether `this.registerer` is non-null,
  - currentSession : the `this.currentSession` slot (direction distinguishes
                     Invitation from Inviter; sessState is the SIP.js
                     SessionState of the bound session; hasSDH / hasPC record
                     whether a sessionDescriptionHandler and its
                     peerConnection are available),
  - isMuted        : the `this.isMuted` flag,
  - registration   : bookkeeping for the registration status as driven by the
                     `registerer.stateChange` listener (the source keeps no
                     such variable; this field exists so that the
                     PhoneState table, which takes a RegistrationState, can be
                     evaluated against the service).  It is set to Registering
                     on entering `register`, falls back to Unregistered when
                     `register` catches, is set by registerer events, and is
                     cleared by a successful `unregister`.

A method that can `throw` reports the thrown error message in `thrown`
("TransportError" stands for an error object produced by the transport, whose
message text the code merely forwards).

Session and registerer listeners (`setupSessionHandlers`, the
`registerer.stateChange` listener) fire as separate asynchronous events; they
are embedded as the step functions `onSessionEvent` and `onRegistererEvent`
acting on the currently bound session.
-/

namespace Softphone

inductive Direction
  | Inbound
  | Outbound
  deriving DecidableEq, Repr

/-- SessionState as defined by SIP.js, which the source imports and
branches on. -/
inductive SessionState
  | Initial
  | Establishing
  | Established
  | Terminating
  | Terminated
  deriving DecidableEq, Repr

/-- PhoneState exactly as the union type in sipService.ts. -/
inductive PhoneState
  | disconnected
  | connecting
  | registered
  | ringing
  | calling
  | inCall
  deriving DecidableEq, Repr

/-- RegistrationState of the data model of the spec (section 3). -/
inductive RegState
  | Unregistered
  | Registering
  | Registered
  deriving DecidableEq, Repr

/-- RegistererState values of SIP.js (the listener in `register` handles
only Registered and Unregistered). -/
inductive RegistererEv
  | Initial
  | Registered
  | Unregistered
  | Terminated
  deriving DecidableEq, Repr

/-- SipCredentials as in sipService.ts. -/
structure SipCredentials where
  username : String
  password : String
  domain : String
  wsServer : String
  deriving DecidableEq, Repr

/-- The session bound in the `currentSession` slot. -/
structure Sess where
  direction : Direction
  sessState : SessionState
  hasSDH : Bool
  hasPC : Bool
  deriving DecidableEq, Repr

/-- Observable events: observer callbacks, console logging, and directives
issued to the SIP.js transport. -/
inductive Ev
  | stateChange (p : PhoneState)
  | callerId (id : String)
  | errorCb (msg : String)
  | logged (msg : String)
  | txStart
  | txRegister
  | txUnregister
  | txStop
  | txInvite
  | txAccept
  | txBye
  | txReject
  | txCancel
  | txInfo (digit : String)
  | audioEnabled (b : Bool)
  | remoteAudioAttached
  deriving DecidableEq, Repr

/-- The mutable fields of the SipService object (plus the `registration`
bookkeeping field, see the module comment). -/
structure SipServiceState where
  hasUserAgent : Bool
  hasRegisterer : Bool
  currentSession : Option Sess
  isMuted : Bool
  registration : RegState
  deriving DecidableEq, Repr

/-- Result of one (possibly throwing) method invocation. -/
structure MethodResult where
  state : SipServiceState
  events : List Ev
  thrown : Option String
  deriving DecidableEq, Repr

/-- Result of `toggleMute`, which returns the new mute flag. -/
structure MuteResult where
  state : SipServiceState
  events : List Ev
  result : Bool
  deriving DecidableEq, Repr

/-- Result of `sendDTMF`, which never throws. -/
structure DtmfResult where
  state : SipServiceState
  events : List Ev
  deriving DecidableEq, Repr

/-- State of a freshly constructed service. -/
def initState : SipServiceState :=
  { hasUserAgent := false
    hasRegisterer := false
    currentSession := none
    isMuted := false
    registration := RegState.Unregistered }

/-- SipService.register.  `uriOk` is the outcome of `UserAgent.makeURI`,
`startOk` of `userAgent.start()`, `regOk` of `registerer.register()`.  The
catch block emits "disconnected", reports the error message to the observer
and rethrows.  Note that a user agent created before a later step failed is
left in place. -/
def register (s : SipServiceState) (c : SipCredentials)
    (uriOk startOk regOk : Bool) : MethodResult :=
  let s0 := { s with registration := RegState.Registering }
  let ev0 := [Ev.stateChange PhoneState.connecting]
  if uriOk = false then
    { state := { s0 with registration := RegState.Unregistered }
      events := ev0 ++ [Ev.stateChange PhoneState.disconnected,
        Ev.errorCb "Invalid SIP URI - check your username and domain"]
      thrown := some "Invalid SIP URI - check your username and domain" }
  else
    let s1 := { s0 with hasUserAgent := true }
    if startOk = false then
      { state := { s1 with registration := RegState.Unregistered }
        events := ev0 ++ [Ev.txStart, Ev.stateChange PhoneState.disconnected,
          Ev.errorCb "Failed to register with SIP server"]
        thrown := some "TransportError" }
    else
      let s2 := { s1 with hasRegisterer := true }
      if regOk = false then
        { state := { s2 with registration := RegState.Unregistered }
          events := ev0 ++ [Ev.txStart, Ev.txRegister,
            Ev.stateChange PhoneState.disconnected,
            Ev.errorCb "Failed to register with SIP server"]
          thrown := some "TransportError" }
      else
        { state := s2
          events := ev0 ++ [Ev.txStart, Ev.txRegister]
          thrown := none }

/-- The `registerer.stateChange` listener installed by `register`: the switch
handles only Registered and Unregistered. -/
def onRegistererEvent (s : SipServiceState) (e : RegistererEv) : MethodResult :=
  match e with
  | RegistererEv.Registered =>
      { state := { s with registration := RegState.Registered }
        events := [Ev.stateChange PhoneState.registered]
        thrown := none }
  | RegistererEv.Unregistered =>
      { state := { s with registration := RegState.Unregistered }
        events := [Ev.stateChange PhoneState.disconnected]
        thrown := none }
  | _ => { state := s, events := [], thrown := none }

/-- SipService.hangup.  `txOk` is the outcome of the teardown request (bye,
reject or cancel).  A failure is logged and swallowed; the finally block
always clears the slot, resets mute and emits "registered" and an empty
caller id. -/
def hangup (s : SipServiceState) (txOk : Bool) : MethodResult :=
  match s.currentSession with
  | none => { state := s, events := [], thrown := none }
  | some sess =>
      { state := { s with currentSession := none, isMuted := false }
        events :=
          (if sess.sessState = SessionState.Establishing
              ∨ sess.sessState = SessionState.Established then [Ev.txBye]
            else if sess.direction = Direction.Inbound then [Ev.txReject]
            else [Ev.txCancel])
          ++ (if txOk then []
              else [Ev.logged "Hangup error (usually safe to ignore):"])
          ++ [Ev.stateChange PhoneState.registered, Ev.callerId ""]
        thrown := none }

/-- SipService.unregister.  Hangs up any bound session first, then calls
`registerer.unregister()` (outcome `unregOk`) and `userAgent.stop()`
(outcome `stopOk`); a failure of either jumps to the catch block, which logs
and reports "Failed to disconnect cleanly", skipping the rest. -/
def unregister (s : SipServiceState) (byeOk unregOk stopOk : Bool) : MethodResult :=
  let r1 :=
    if s.currentSession.isSome then hangup s byeOk
    else MethodResult.mk s [] none
  let s1 := r1.state
  if s1.hasRegisterer && !unregOk then
    { state := s1
      events := r1.events ++ [Ev.txUnregister, Ev.logged "console.error",
        Ev.errorCb "Failed to disconnect cleanly"]
      thrown := none }
  else if s1.hasUserAgent && !stopOk then
    { state := s1
      events := r1.events
        ++ (if s1.hasRegisterer then [Ev.txUnregister] else [])
        ++ [Ev.txStop, Ev.logged "console.error",
            Ev.errorCb "Failed to disconnect cleanly"]
      thrown := none }
  else
    { state :=
        { s1 with hasUserAgent := false, registration := RegState.Unregistered }
      events := r1.events
        ++ (if s1.hasRegisterer then [Ev.txUnregister] else [])
        ++ (if s1.hasUserAgent then [Ev.txStop] else [])
        ++ [Ev.stateChange PhoneState.disconnected]
      thrown := none }

/-- The session a `new Inviter(...)` is born in (SIP.js sessions start in
state Initial; the state advances through the session listener). -/
def freshOutbound : Sess :=
  { direction := Direction.Outbound
    sessState := SessionState.Initial
    hasSDH := false
    hasPC := false }

/-- SipService.call.  Requires a user agent, parses the destination
(`uriOk`), then unconditionally overwrites `currentSession` with the new
Inviter, emits "calling" and the dialed destination, and sends the INVITE
(outcome `inviteOk`); on an INVITE error the slot is cleared, "registered"
is emitted and the error rethrown. -/
def call (s : SipServiceState) (dest : String)
    (uriOk inviteOk : Bool) : MethodResult :=
  if s.hasUserAgent = false then
    { state := s, events := [], thrown := some "Not connected - please register first" }
  else if uriOk = false then
    { state := s, events := [], thrown := some "Invalid destination number" }
  else
    { state := { s with currentSession :=
        if inviteOk then some freshOutbound else none }
      events := [Ev.stateChange PhoneState.calling, Ev.callerId dest, Ev.txInvite]
        ++ (if inviteOk then []
            else [Ev.stateChange PhoneState.registered])
      thrown := if inviteOk then none else some "TransportError" }

/-- SipService.answer.  The only precondition the code checks is that a
session is bound and is an Invitation (inbound); the sub-state is never
consulted.  `acceptOk` is the outcome of `invitation.accept(...)`; a failure
reports "Failed to answer call" and rethrows. -/
def answer (s : SipServiceState) (acceptOk : Bool) : MethodResult :=
  match s.currentSession with
  | none =>
      { state := s, events := [], thrown := some "No incoming call to answer" }
  | some sess =>
      if sess.direction = Direction.Outbound then
        { state := s, events := [], thrown := some "No incoming call to answer" }
      else
        { state := s
          events := [Ev.txAccept]
            ++ (if acceptOk then [] else [Ev.errorCb "Failed to answer call"])
          thrown := if acceptOk then none else some "TransportError" }

/-- SipService.toggleMute.  The code checks only that a session is bound;
it then flips `isMuted`, and applies the new value to the audio senders when
a sessionDescriptionHandler with a peerConnection exists (the senders are
set to enabled = not muted). -/
def toggleMute (s : SipServiceState) : MuteResult :=
  match s.currentSession with
  | none => { state := s, events := [], result := false }
  | some sess =>
      { state := { s with isMuted := !s.isMuted }
        events :=
          if sess.hasSDH && sess.hasPC then [Ev.audioEnabled (!(!s.isMuted))]
          else []
        result := !s.isMuted }

/-- The regex `[0-9*#]` applied to exactly one character, as in
SipService.sendDTMF. -/
def isValidDTMF (d : String) : Bool :=
  match d.toList with
  | [c] => c.isDigit || c == '*' || c == '#'
  | _ => false

/-- SipService.sendDTMF.  Returns silently when no session is bound; the
sub-state is never consulted.  Invalid symbols are warned about and dropped;
an error from `session.info` is caught and logged.  No observer callback is
invoked and no state changes. -/
def sendDTMF (s : SipServiceState) (digit : String) (infoOk : Bool) : DtmfResult :=
  match s.currentSession with
  | none => { state := s, events := [] }
  | some _ =>
      { state := s
        events :=
          if isValidDTMF digit then
            [Ev.txInfo digit]
              ++ (if infoOk then [] else [Ev.logged "Failed to send DTMF:"])
          else [Ev.logged "Invalid DTMF digit:"] }

/-- Caller id extraction: `fromHeader?.uri?.user || "Unknown"` (a missing or
empty user part falls back to "Unknown"). -/
def callerIdOf : Option String → String
  | none => "Unknown"
  | some u => if u = "" then "Unknown" else u

/-- The session a fresh Invitation is bound as. -/
def freshInbound : Sess :=
  { direction := Direction.Inbound
    sessState := SessionState.Initial
    hasSDH := false
    hasPC := false }

/-- SipService.handleIncomingCall (the `onInvite` delegate).  It
unconditionally stores the invitation in `currentSession`, emits "ringing"
and the caller id, and installs the session handlers; no check against an
already bound session and no decline is performed. -/
def handleIncomingCall (s : SipServiceState) (peer : Option String) : MethodResult :=
  { state := { s with currentSession := some freshInbound }
    events := [Ev.stateChange PhoneState.ringing, Ev.callerId (callerIdOf peer)]
    thrown := none }

/-- The listener installed by SipService.setupSessionHandlers, embedded as
acting on the currently bound session: the state of the bound session becomes
`newState`, then the switch runs (Establishing emits "calling" only for an
Inviter; Established emits "in-call" and attaches remote audio; Terminated
clears the slot, resets mute, and emits "registered" and an empty caller
id). -/
def onSessionEvent (s : SipServiceState) (newState : SessionState) : MethodResult :=
  let s0 := { s with currentSession :=
    s.currentSession.map (fun sess => { sess with sessState := newState }) }
  match newState with
  | SessionState.Establishing =>
      { state := s0
        events :=
          if (match s.currentSession with
              | some sess => sess.direction == Direction.Outbound
              | none => false) then [Ev.stateChange PhoneState.calling]
          else []
        thrown := none }
  | SessionState.Established =>
      { state := s0
        events := [Ev.stateChange PhoneState.inCall]
          ++ (match s.currentSession with
              | some sess =>
                  if sess.hasSDH && sess.hasPC then [Ev.remoteAudioAttached]
                  else []
              | none => [])
        thrown := none }
  | SessionState.Terminated =>
      { state := { s0 with currentSession := none, isMuted := false }
        events := [Ev.stateChange PhoneState.registered, Ev.callerId ""]
        thrown := none }
  | _ => { state := s0, events := [], thrown := none }

/-- SipService.isInCall. -/
def isInCall (s : SipServiceState) : Bool :=
  s.currentSession.isSome

/-- Modelled from the spec: the PhoneState derivation table of spec section 3
(a pure function of RegistrationState, session direction and session
sub-state), used as the comparison point for the projection claims.  The
Idle sub-state of the spec corresponds to a SIP.js Initial inbound session; an
outbound session counts as Establishing from creation (the spec gives
outbound sessions no Idle phase), so Initial outbound maps to the Calling
row.  Combinations outside the table yield none. -/
def phoneStateTable (r : RegState) (sess : Option Sess) : Option PhoneState :=
  match r with
  | RegState.Registering => some PhoneState.connecting
  | RegState.Unregistered =>
      match sess with
      | none => some PhoneState.disconnected
      | some _ => none
  | RegState.Registered =>
      match sess with
      | none => some PhoneState.registered
      | some x =>
          match x.sessState with
          | SessionState.Established => some PhoneState.inCall
          | SessionState.Initial =>
              match x.direction with
              | Direction.Inbound => some PhoneState.ringing
              | Direction.Outbound => some PhoneState.calling
          | SessionState.Establishing =>
              match x.direction with
              | Direction.Inbound => some PhoneState.ringing
              | Direction.Outbound => some PhoneState.calling
          | _ => none

/-- The PhoneState values carried by the stateChange emissions of an event
list. -/
def stateChanges (l : List Ev) : List PhoneState :=
  l.filterMap fun e =>
    match e with
    | Ev.stateChange q => some q
    | _ => none

/-- Whether an event is an observer error callback. -/
def isErrCbEv : Ev → Bool
  | Ev.errorCb _ => true
  | _ => false

/-- Whether an event is a PhoneState emission. -/
def isStateChangeEv : Ev → Bool
  | Ev.stateChange _ => true
  | _ => false

/-- Every PhoneState emitted by a method result agrees with the spec table
evaluated at the resulting state of the method. -/
def allMatchTable (r : MethodResult) : Bool :=
  (stateChanges r.events).all fun q =>
    phoneStateTable r.state.registration r.state.currentSession == some q

/-- Demo credentials for concrete runs. -/
def credsDemo : SipCredentials :=
  { username := "1001"
    password := "pw"
    domain := "example.com"
    wsServer := "wss://example.com/ws" }

/-- A registered, idle service (reachable: register succeeds, then the
registerer reports Registered). -/
def registeredIdle : SipServiceState :=
  { hasUserAgent := true
    hasRegisterer := true
    currentSession := none
    isMuted := false
    registration := RegState.Registered }

/-- A registered service with an unanswered inbound call ringing. -/
def ringingState : SipServiceState :=
  { registeredIdle with currentSession := some freshInbound }

/-- An inbound session with flowing media. -/
def inbEstablished : Sess :=
  { direction := Direction.Inbound
    sessState := SessionState.Established
    hasSDH := true
    hasPC := true }

/-- A registered service in an established inbound call. -/
def inCallState : SipServiceState :=
  { registeredIdle with currentSession := some inbEstablished }

/-- C4: for every session in any non-Terminated sub-state, hangup always
converges: regardless of the transport outcome of the teardown request, the
session slot is cleared, the mute flag is reset, nothing is thrown, no error
reaches the observer (transport failures are logged only), and the method
emits the registered PhoneState and an empty caller identity. -/
theorem C4_theorem : ∀ (ua hr m : Bool) (rg : RegState) (sess : Sess) (txOk : Bool),
    sess.sessState ≠ SessionState.Terminated →
    (hangup ⟨ua, hr, some sess, m, rg⟩ txOk).state.currentSession = none
    ∧ (hangup ⟨ua, hr, some sess, m, rg⟩ txOk).state.isMuted = false
    ∧ (hangup ⟨ua, hr, some sess, m, rg⟩ txOk).thrown = none
    ∧ ((hangup ⟨ua, hr, some sess, m, rg⟩ txOk).events.any isErrCbEv) = false
    ∧ ((hangup ⟨ua, hr, some sess, m, rg⟩ txOk).events.contains
        (Ev.stateChange PhoneState.registered)) = true
    ∧ ((hangup ⟨ua, hr, some sess, m, rg⟩ txOk).events.contains (Ev.callerId "")) = true
    ∧ (txOk = false →
        ((hangup ⟨ua, hr, some sess, m, rg⟩ txOk).events.contains
          (Ev.logged "Hangup error (usually safe to ignore):")) = true) := by
  intro ua hr m rg sess txOk hne
  rcases sess with ⟨d, st, sdh, pc⟩
  cases d <;> cases st <;> cases txOk <;>
    first
      | exact absurd rfl hne
      | exact ⟨rfl, rfl, rfl, rfl, rfl, rfl, fun hh => Bool.noConfusion hh⟩
      | exact ⟨rfl, rfl, rfl, rfl, rfl, rfl, fun _ => rfl⟩

/-- Witness for C4: a ringing inbound session hung up with a failing reject
still converges, with the failure logged. -/
theorem C4_witness :
    (hangup ringingState false).state.currentSession = none
    ∧ (hangup ringingState false).state.isMuted = false
    ∧ (hangup ringingState false).thrown = none
    ∧ ((hangup ringingState false).events.any isErrCbEv) = false
    ∧ ((hangup ringingState false).events.contains
        (Ev.stateChange PhoneState.registered)) = true
    ∧ ((hangup ringingState false).events.contains (Ev.callerId "")) = true
    ∧ ((hangup ringingState false).events.contains
        (Ev.logged "Hangup error (usually safe to ignore):")) = true := by
  have h := C4_theorem true true false RegState.Registered freshInbound false (by decide)
  exact ⟨h.1, h.2.1, h.2.2.1, h.2.2.2.1, h.2.2.2.2.1, h.2.2.2.2.2.1,
    h.2.2.2.2.2.2 rfl⟩

/-- C5: hangup is idempotent.  A second hangup after a first one, or a
hangup after the session listener has already processed a remote
Terminated event, finds the slot empty and is a strict no-op: same state,
no emissions, no error. -/
theorem C5_theorem : ∀ (s : SipServiceState) (b1 b2 b3 : Bool),
    hangup (hangup s b1).state b2 = MethodResult.mk (hangup s b1).state [] none
    ∧ hangup (onSessionEvent s SessionState.Terminated).state b3
      = MethodResult.mk (onSessionEvent s SessionState.Terminated).state [] none := by
  intro s b1 b2 b3
  rcases s with ⟨ua, hr, cs, m, rg⟩
  cases cs <;> exact ⟨rfl, rfl⟩

/-- C10: isInCall returns exactly whether the currentSession slot is bound,
so it is true for a session in any sub-state (ringing inbound, establishing
outbound, established) and false exactly when no session exists; an
incoming call makes it true and hangup makes it false. -/
theorem C10_theorem : ∀ (ua hr m : Bool) (rg : RegState) (sess : Sess)
    (s : SipServiceState) (p : Option String) (b : Bool),
    isInCall s = s.currentSession.isSome
    ∧ isInCall ⟨ua, hr, some sess, m, rg⟩ = true
    ∧ isInCall ⟨ua, hr, none, m, rg⟩ = false
    ∧ isInCall (handleIncomingCall s p).state = true
    ∧ isInCall (hangup s b).state = false := by
  intro ua hr m rg sess s p b
  rcases s with ⟨ua2, hr2, cs, m2, rg2⟩
  cases cs <;> exact ⟨rfl, rfl, rfl, rfl, rfl⟩

/-- C1 counterexample: from a reachable state (successful registration, the
registerer reports Registered, an inbound call arrives and is ringing), an
outbound call request does not fail with SessionBusy: it succeeds and binds
a new outbound session over the active one; likewise a second incoming
invitation is not declined (no reject directive) and replaces the bound
session. -/
theorem C1_counterexample :
    (onRegistererEvent (register initState credsDemo true true true).state
        RegistererEv.Registered).state = registeredIdle
    ∧ (handleIncomingCall registeredIdle (some "4155551212")).state = ringingState
    ∧ ringingState.currentSession.isSome = true
    ∧ (call ringingState "1001" true true).thrown = none
    ∧ (call ringingState "1001" true true).state.currentSession = some freshOutbound
    ∧ (handleIncomingCall ringingState (some "2222")).thrown = none
    ∧ (handleIncomingCall ringingState (some "2222")).state.currentSession
        = some freshInbound
    ∧ ((handleIncomingCall ringingState (some "2222")).events.any
        (fun e => e == Ev.txReject)) = false := by
  decide

/-- C1 amended: the single-session invariant is not enforced.  call checks
only that a user agent exists — its behaviour is identical whether or not a
session is active (never SessionBusy) — and overwrites the slot with the
new outbound session; an incoming invitation is never auto-declined and
likewise overwrites the slot.  Only the slot itself keeps the number of
tracked sessions at one; the displaced session is neither terminated nor
declined. -/
theorem C1_theorem : ∀ (ua hr m : Bool) (rg : RegState) (sess : Sess)
    (dest : String) (p : Option String) (b : Bool),
    call ⟨true, hr, some sess, m, rg⟩ dest true b
      = call ⟨true, hr, none, m, rg⟩ dest true b
    ∧ ((call ⟨true, hr, some sess, m, rg⟩ dest true true).thrown
        == some "SessionBusy") = false
    ∧ (call ⟨true, hr, some sess, m, rg⟩ dest true true).state.currentSession
        = some freshOutbound
    ∧ (handleIncomingCall ⟨ua, hr, some sess, m, rg⟩ p).state.currentSession
        = some freshInbound
    ∧ ((handleIncomingCall ⟨ua, hr, some sess, m, rg⟩ p).events.any
        (fun e => e == Ev.txReject)) = false
    ∧ (handleIncomingCall ⟨ua, hr, some sess, m, rg⟩ p).thrown = none := by
  intro ua hr m rg sess dest p b
  exact ⟨rfl, rfl, rfl, rfl, rfl, rfl⟩

/-- C3 counterexample: in the reachable Registered state, a second register
call does not fail with AlreadyConnected: it throws nothing, emits
connecting first, and issues a fresh REGISTER to the transport. -/
theorem C3_counterexample :
    (onRegistererEvent (register initState credsDemo true true true).state
        RegistererEv.Registered).state.registration = RegState.Registered
    ∧ (register registeredIdle credsDemo true true true).thrown = none
    ∧ (register registeredIdle credsDemo true true true).events.head?
        = some (Ev.stateChange PhoneState.connecting)
    ∧ ((register registeredIdle credsDemo true true true).events.contains
        Ev.txRegister) = true := by
  decide

/-- C3 amended: register performs no precondition check on the registration
state.  Its behaviour is identical from Unregistered, Registering or
Registered; it never fails with AlreadyConnected, always emits connecting
first, and on a successful run builds a fresh user agent and registerer and
issues a new REGISTER. -/
theorem C3_theorem : ∀ (ua hr m : Bool) (rg : RegState) (cs : Option Sess)
    (c : SipCredentials) (u st r : Bool),
    register ⟨ua, hr, cs, m, rg⟩ c u st r
      = register ⟨ua, hr, cs, m, RegState.Registered⟩ c u st r
    ∧ (register ⟨ua, hr, cs, m, rg⟩ c u st r).events.head?
      = some (Ev.stateChange PhoneState.connecting)
    ∧ ((register ⟨ua, hr, cs, m, rg⟩ c u st r).thrown == some "AlreadyConnected") = false
    ∧ (register ⟨ua, hr, cs, m, rg⟩ c true true true).events
      = [Ev.stateChange PhoneState.connecting, Ev.txStart, Ev.txRegister]
    ∧ (register ⟨ua, hr, cs, m, rg⟩ c true true true).state.hasUserAgent = true
    ∧ (register ⟨ua, hr, cs, m, rg⟩ c true true true).state.hasRegisterer = true
    ∧ (register ⟨ua, hr, cs, m, rg⟩ c true true true).thrown = none := by
  intro ua hr m rg cs c u st r
  cases u <;> cases st <;> cases r <;>
    exact ⟨rfl, rfl, rfl, rfl, rfl, rfl, rfl⟩

/-- C6 counterexample: with an Inbound session already Established (well past
Idle), answer does not fail with InvalidState: it passes the only code
guard and requests the transport accept. -/
theorem C6_counterexample :
    inCallState.currentSession = some inbEstablished
    ∧ inbEstablished.sessState = SessionState.Established
    ∧ (answer inCallState true).thrown = none
    ∧ (answer inCallState true).events = [Ev.txAccept] := by
  decide

/-- C6 amended: answer fails fast — with the error "No incoming call to
answer", not InvalidState — exactly when no session is bound or the bound
session is Outbound, and then changes no state; for an Inbound session the
sub-state is never consulted: in every sub-state the transport accept is
requested and the service state is unchanged, with "Failed to answer call"
reported only if the transport accept itself fails. -/
theorem C6_theorem : ∀ (ua hr m : Bool) (rg : RegState) (sess : Sess)
    (st2 : SessionState) (a : Bool),
    (answer ⟨ua, hr, none, m, rg⟩ a).thrown = some "No incoming call to answer"
    ∧ (answer ⟨ua, hr, none, m, rg⟩ a).state = ⟨ua, hr, none, m, rg⟩
    ∧ (answer ⟨ua, hr, none, m, rg⟩ a).events = []
    ∧ (answer ⟨ua, hr, some { sess with direction := Direction.Outbound }, m, rg⟩ a).thrown
      = some "No incoming call to answer"
    ∧ (answer ⟨ua, hr, some { sess with direction := Direction.Outbound }, m, rg⟩ a).events
      = []
    ∧ (answer ⟨ua, hr, some { sess with direction := Direction.Inbound, sessState := st2 },
          m, rg⟩ a).events
      = (answer ⟨ua, hr, some { sess with direction := Direction.Inbound }, m, rg⟩ a).events
    ∧ (answer ⟨ua, hr, some { sess with direction := Direction.Inbound, sessState := st2 },
          m, rg⟩ a).thrown
      = (answer ⟨ua, hr, some { sess with direction := Direction.Inbound }, m, rg⟩ a).thrown
    ∧ ((answer ⟨ua, hr, some { sess with direction := Direction.Inbound, sessState := st2 },
          m, rg⟩ a).events.contains Ev.txAccept) = true
    ∧ (answer ⟨ua, hr, some { sess with direction := Direction.Inbound, sessState := st2 },
          m, rg⟩ a).state
      = ⟨ua, hr, some { sess with direction := Direction.Inbound, sessState := st2 }, m, rg⟩ := by
  intro ua hr m rg sess st2 a
  cases a <;> exact ⟨rfl, rfl, rfl, rfl, rfl, rfl, rfl, rfl, rfl⟩

/-- C7 counterexample: with a bound inbound session that is merely ringing
(Initial, not Established), toggleMute is not a no-op returning false: it
flips the stored flag and returns true. -/
theorem C7_counterexample :
    (freshInbound.sessState == SessionState.Established) = false
    ∧ (toggleMute ringingState).result = true
    ∧ (toggleMute ringingState).state.isMuted = true := by
  decide

/-- C7 amended: toggleMute is a no-op returning false only when no session
is bound at all; with any bound session — Established or not — it flips the
stored muted flag, returns the new value, and applies the enabled directive
to the outbound audio path exactly when the session has a description
handler with a peer connection; toggling twice restores the original
flag. -/
theorem C7_theorem : ∀ (ua hr m : Bool) (rg : RegState) (sess : Sess),
    toggleMute ⟨ua, hr, none, m, rg⟩ = ⟨⟨ua, hr, none, m, rg⟩, [], false⟩
    ∧ (toggleMute ⟨ua, hr, some sess, m, rg⟩).result = !m
    ∧ (toggleMute ⟨ua, hr, some sess, m, rg⟩).state.isMuted = !m
    ∧ (toggleMute ⟨ua, hr, some sess, m, rg⟩).state.currentSession = some sess
    ∧ (toggleMute ⟨ua, hr, some sess, m, rg⟩).events
      = (if sess.hasSDH && sess.hasPC then [Ev.audioEnabled m] else [])
    ∧ (toggleMute (toggleMute ⟨ua, hr, some sess, m, rg⟩).state).result = m
    ∧ (toggleMute (toggleMute ⟨ua, hr, some sess, m, rg⟩).state).state.isMuted = m := by
  intro ua hr m rg sess
  cases m <;> exact ⟨rfl, rfl, rfl, rfl, rfl, rfl, rfl⟩

/-- C8 counterexample: with a bound inbound session that is not Established
(still ringing), sendDTMF is not a no-op: it forwards the digit as an INFO
directive to the transport. -/
theorem C8_counterexample :
    (freshInbound.sessState == SessionState.Established) = false
    ∧ (sendDTMF ringingState "5" true).events = [Ev.txInfo "5"]
    ∧ (sendDTMF registeredIdle "5" true).events = []
    ∧ (sendDTMF registeredIdle "5" true).state = registeredIdle := by
  decide

/-- C8 amended: sendDTMF is a no-op only when no session is bound; with any
bound session — regardless of sub-state — it validates the symbol against
0-9, * and #, forwards a valid symbol as an INFO directive (a transport
failure being only logged), and logs and drops an invalid symbol; in every
case it never changes the service state, never emits a PhoneState and never
invokes the observer error callback. -/
theorem C8_theorem : ∀ (ua hr m : Bool) (rg : RegState) (sess : Sess)
    (st2 : SessionState) (d : String) (ok : Bool),
    sendDTMF ⟨ua, hr, none, m, rg⟩ d ok = ⟨⟨ua, hr, none, m, rg⟩, []⟩
    ∧ (sendDTMF ⟨ua, hr, some sess, m, rg⟩ d ok).state = ⟨ua, hr, some sess, m, rg⟩
    ∧ ((sendDTMF ⟨ua, hr, some sess, m, rg⟩ d ok).events.any isStateChangeEv) = false
    ∧ ((sendDTMF ⟨ua, hr, some sess, m, rg⟩ d ok).events.any isErrCbEv) = false
    ∧ (sendDTMF ⟨ua, hr, some { sess with sessState := st2 }, m, rg⟩ d ok).events
      = (sendDTMF ⟨ua, hr, some sess, m, rg⟩ d ok).events
    ∧ (sendDTMF ⟨ua, hr, some sess, m, rg⟩ d ok).events
      = (if isValidDTMF d then
          [Ev.txInfo d] ++ (if ok then [] else [Ev.logged "Failed to send DTMF:"])
        else [Ev.logged "Invalid DTMF digit:"]) := by
  intro ua hr m rg sess st2 d ok
  refine ⟨rfl, rfl, ?_, ?_, rfl, rfl⟩ <;>
    cases hv : isValidDTMF d <;> cases ok <;>
      simp [sendDTMF, hv, isStateChangeEv, isErrCbEv]

/-- C9 counterexample: from the reachable Registered idle state, when the
underlying unregister call fails, the error is not swallowed silently — the
observer receives "Failed to disconnect cleanly" — and the operation does
not end disconnected: no disconnected PhoneState is emitted and the user
agent is left in place. -/
theorem C9_counterexample :
    ((unregister registeredIdle true false true).events.contains
      (Ev.errorCb "Failed to disconnect cleanly")) = true
    ∧ ((unregister registeredIdle true false true).events.contains
      (Ev.stateChange PhoneState.disconnected)) = false
    ∧ (unregister registeredIdle true false true).state.hasUserAgent = true := by
  decide

/-- Helper for C9: unregister never throws and always leaves the session
slot empty (any bound session is hung up first). -/
theorem unregister_no_throw_clears_session :
    ∀ (s : SipServiceState) (b u st : Bool),
    (unregister s b u st).thrown = none
    ∧ (unregister s b u st).state.currentSession = none := by
  intro s b u st
  rcases s with ⟨ua, hr, cs, m, rg⟩
  cases cs <;> cases hr <;> cases ua <;> cases u <;> cases st <;> exact ⟨rfl, rfl⟩

/-- Helper for C9: when the underlying unregister call fails, the failure is
surfaced to the observer, no disconnected PhoneState is emitted, and the
user agent is not torn down. -/
theorem unregister_fail_surfaces :
    ∀ (ua m b st : Bool) (rg : RegState) (cs : Option Sess),
    ((unregister ⟨ua, true, cs, m, rg⟩ b false st).events.contains
      (Ev.errorCb "Failed to disconnect cleanly")) = true
    ∧ ((unregister ⟨ua, true, cs, m, rg⟩ b false st).events.contains
      (Ev.stateChange PhoneState.disconnected)) = false
    ∧ (unregister ⟨ua, true, cs, m, rg⟩ b false st).state.hasUserAgent = ua := by
  intro ua m b st rg cs
  rcases cs with _ | ⟨d2, sst2, sdh2, pc2⟩
  · exact ⟨rfl, rfl, rfl⟩
  · cases d2 <;> cases sst2 <;> cases b <;> exact ⟨rfl, rfl, rfl⟩

/-- Helper for C9: when both transport teardown calls succeed, unregister
ends disconnected: the last emission is the disconnected PhoneState and the
user agent is cleared. -/
theorem unregister_ok_disconnects :
    ∀ (s : SipServiceState) (b : Bool),
    ((unregister s b true true).events.getLast?
      = some (Ev.stateChange PhoneState.disconnected))
    ∧ (unregister s b true true).state.hasUserAgent = false
    ∧ (unregister s b true true).state.registration = RegState.Unregistered := by
  intro s b
  rcases s with ⟨ua, hr, cs, m, rg⟩
  rcases cs with _ | ⟨d2, sst2, sdh2, pc2⟩
  · cases hr <;> cases ua <;> exact ⟨rfl, rfl, rfl⟩
  · cases hr <;> cases ua <;> cases d2 <;> cases sst2 <;> cases b <;>
      exact ⟨rfl, rfl, rfl⟩

/-- C9 amended: unregister first hangs up any active session (the slot is
always left empty) and never throws; but errors from the underlying
unregister or stop calls are not silent — they are reported to the observer
as "Failed to disconnect cleanly" — and in that case the disconnected
emission and the user-agent teardown are skipped, so the operation ends
disconnected only when the transport teardown succeeds. -/
theorem C9_theorem : ∀ (s : SipServiceState) (b u st ua m : Bool)
    (rg : RegState) (cs : Option Sess),
    (unregister s b u st).thrown = none
    ∧ (unregister s b u st).state.currentSession = none
    ∧ ((unregister ⟨ua, true, cs, m, rg⟩ b false st).events.contains
        (Ev.errorCb "Failed to disconnect cleanly")) = true
    ∧ ((unregister ⟨ua, true, cs, m, rg⟩ b false st).events.contains
        (Ev.stateChange PhoneState.disconnected)) = false
    ∧ (unregister ⟨ua, true, cs, m, rg⟩ b false st).state.hasUserAgent = ua
    ∧ ((unregister s b true true).events.getLast?
        = some (Ev.stateChange PhoneState.disconnected))
    ∧ (unregister s b true true).state.hasUserAgent = false
    ∧ (unregister s b true true).state.registration = RegState.Unregistered := by
  intro s b u st ua m rg cs
  obtain ⟨h1, h2⟩ := unregister_no_throw_clears_session s b u st
  obtain ⟨h3, h4, h5⟩ := unregister_fail_surfaces ua m b st rg cs
  obtain ⟨h6, h7, h8⟩ := unregister_ok_disconnects s b
  exact ⟨h1, h2, h3, h4, h5, h6, h7, h8⟩

/-- C2 counterexample: a reachable deviation from the table.  A registration
attempt whose REGISTER fails leaves the user agent (and its onInvite
delegate) in place while the registration state has fallen back to
Unregistered; an incoming call then emits the ringing PhoneState, but the
table-derived function of the resulting (Unregistered, inbound session)
pair is not ringing — the table has no such row at all. -/
theorem C2_counterexample :
    (register initState credsDemo true true false).state.registration
      = RegState.Unregistered
    ∧ (register initState credsDemo true true false).state.hasUserAgent = true
    ∧ ((handleIncomingCall (register initState credsDemo true true false).state
        (some "4155551212")).events.contains
        (Ev.stateChange PhoneState.ringing)) = true
    ∧ phoneStateTable
        (handleIncomingCall (register initState credsDemo true true false).state
          (some "4155551212")).state.registration
        (handleIncomingCall (register initState credsDemo true true false).state
          (some "4155551212")).state.currentSession
      = none
    ∧ allMatchTable
        (handleIncomingCall (register initState credsDemo true true false).state
          (some "4155551212")) = false := by
  decide

/-- Helper for C2: the PhoneState emissions of the incoming-call handler,
the session listener and hangup never consult the registration state. -/
theorem emissions_ignore_registration :
    ∀ (ua hr m : Bool) (rg : RegState) (cs : Option Sess)
      (p : Option String) (st : SessionState) (b : Bool),
    (handleIncomingCall ⟨ua, hr, cs, m, rg⟩ p).events
      = (handleIncomingCall ⟨ua, hr, cs, m, RegState.Registered⟩ p).events
    ∧ (onSessionEvent ⟨ua, hr, cs, m, rg⟩ st).events
      = (onSessionEvent ⟨ua, hr, cs, m, RegState.Registered⟩ st).events
    ∧ (hangup ⟨ua, hr, cs, m, rg⟩ b).events
      = (hangup ⟨ua, hr, cs, m, RegState.Registered⟩ b).events := by
  intro ua hr m rg cs p st b
  rcases cs with _ | ⟨d2, sst2, sdh2, pc2⟩ <;> cases st <;> exact ⟨rfl, rfl, rfl⟩

/-- Helper for C2: under a Registered registration state, every PhoneState
emitted by the incoming-call handler agrees with the table at the resulting
state. -/
theorem incoming_matches_table :
    ∀ (ua hr m : Bool) (cs : Option Sess) (p : Option String),
    allMatchTable (handleIncomingCall ⟨ua, hr, cs, m, RegState.Registered⟩ p) = true := by
  intro ua hr m cs p
  rfl

/-- Helper for C2: under a Registered registration state, every PhoneState
emitted by the session listener on the bound session agrees with the table
at the resulting state. -/
theorem session_event_matches_table :
    ∀ (ua hr m : Bool) (sess : Sess) (st : SessionState),
    allMatchTable (onSessionEvent ⟨ua, hr, some sess, m, RegState.Registered⟩ st) = true := by
  intro ua hr m sess st
  rcases sess with ⟨d, sst, sdh, pc⟩
  cases st <;> cases d <;> cases sdh <;> cases pc <;> rfl

/-- Helper for C2: under a Registered registration state, every PhoneState
emitted by hangup agrees with the table at the resulting state. -/
theorem hangup_matches_table :
    ∀ (ua hr m : Bool) (cs : Option Sess) (b : Bool),
    allMatchTable (hangup ⟨ua, hr, cs, m, RegState.Registered⟩ b) = true := by
  intro ua hr m cs b
  rcases cs with _ | ⟨d2, sst2, sdh2, pc2⟩
  · rfl
  · cases d2 <;> cases sst2 <;> cases b <;> rfl

/-- C2 amended: the PhoneState emissions of the cited paths (incoming-call
handling, the session state listener, hangup) are hard-coded per code path
and ignore the registration state entirely; when the registration state is
Registered they all agree with the table-derived function of the resulting
(registration, session direction, session sub-state), but when it is not —
reachably, after a failed registration attempt leaves the user agent in
place — the same hard-coded values are emitted and deviate from the
table. -/
theorem C2_theorem : ∀ (ua hr m : Bool) (rg : RegState) (cs : Option Sess)
    (sess : Sess) (p : Option String) (st : SessionState) (b : Bool),
    (handleIncomingCall ⟨ua, hr, cs, m, rg⟩ p).events
      = (handleIncomingCall ⟨ua, hr, cs, m, RegState.Registered⟩ p).events
    ∧ (onSessionEvent ⟨ua, hr, cs, m, rg⟩ st).events
      = (onSessionEvent ⟨ua, hr, cs, m, RegState.Registered⟩ st).events
    ∧ (hangup ⟨ua, hr, cs, m, rg⟩ b).events
      = (hangup ⟨ua, hr, cs, m, RegState.Registered⟩ b).events
    ∧ allMatchTable (handleIncomingCall ⟨ua, hr, cs, m, RegState.Registered⟩ p) = true
    ∧ allMatchTable (onSessionEvent ⟨ua, hr, some sess, m, RegState.Registered⟩ st) = true
    ∧ allMatchTable (hangup ⟨ua, hr, cs, m, RegState.Registered⟩ b) = true := by
  intro ua hr m rg cs sess p st b
  obtain ⟨h1, h2, h3⟩ := emissions_ignore_registration ua hr m rg cs p st b
  exact ⟨h1, h2, h3, incoming_matches_table ua hr m cs p,
    session_event_matches_table ua hr m sess st, hangup_matches_table ua hr m cs b⟩

end Softphone
